import Mathlib

/-!
Verification of the AgentMCP semantic document store (the FAISS-backed RAG
subsystem). The Python sources embedded here are
`src/neo4jQA/src/mcp server/rag_server.py` (tools `query_documents`,
`get_database_status`, `clear_database`, `search_similar_documents`, helpers
`initialize_embeddings` and `check_database_exists`) and
`src/prompt agent/src/pdf_processor.py` (`upload_and_process_pdf`).
File-system state is modelled as the store directory `faiss_db` with its two
artifacts `index.faiss` and `index.pkl`; external-library calls
(DashScope embeddings, FAISS load/save/search, langchain's text splitter) are
modelled at the granularity the claims need, with explicit injected failure
points for the fallible ones.
-/

namespace AgentMCP

/-- Observable effects of a tool call: construction of the DashScope embeddings
client, an embedding (network) call, a FAISS load from disk, an index build
(`FAISS.from_texts`), a save to disk. -/
inductive Ev
  | constructClient
  | embedCall
  | loadCall
  | buildIndex
  | saveCall
deriving DecidableEq

/-- The Python exceptions the embedded code can raise. `msg` gives a fixed
representative of each runtime message (`str(e)` in the sources); only
`missingApiKey` has its exact text in the repository
(`raise ValueError("未找到 DASHSCOPE_API_KEY，请在 .env 中配置")`). -/
inductive Exn
  | missingApiKey
  | loadError
  | embedError
  | ioError
deriving DecidableEq

/-- The human-readable text of each exception. -/
def Exn.msg : Exn → String
  | .missingApiKey => "未找到 DASHSCOPE_API_KEY，请在 .env 中配置"
  | .loadError => "无法读取 faiss_db 下的索引文件"
  | .embedError => "嵌入服务不可用"
  | .ioError => "磁盘写入失败"

/-- One on-disk artifact of the store: `valid` is whether the file was written
to completion (parseable by `faiss.read_index` / `pickle.load`), `content` the
fragment texts of the index it serializes, `size` its byte size as reported by
`stat().st_size`. -/
structure FData where
  valid : Bool
  content : List String
  size : Nat
deriving DecidableEq

/-- The file-system state at the store location `faiss_db`: whether the
directory exists and the two artifacts `index.faiss` and `index.pkl`. -/
structure Fs where
  dir : Bool
  faissFile : Option FData
  pklFile : Option FData
deriving DecidableEq

/-- No store: the `faiss_db` directory does not exist. -/
def Fs.empty : Fs := ⟨false, none, none⟩

/-- rag_server.py `check_database_exists`:
`os.path.exists(FAISS_DB_PATH) and os.path.exists(os.path.join(FAISS_DB_PATH, "index.faiss"))`. -/
def check_database_exists (fs : Fs) : Bool :=
  fs.dir && fs.faissFile.isSome

/-- A complete, previously-saved store: the directory and both artifacts are
present and each was written to completion.  This is the spec's notion of
"a complete, previously-saved index is present", stated on the file system;
`load_local` succeeds exactly on such states. -/
def complete_store (fs : Fs) : Bool :=
  fs.dir
    && (match fs.faissFile with | some f => f.valid | none => false)
    && (match fs.pklFile with | some p => p.valid | none => false)

/-- Where an injected I/O failure stops `FAISS.save_local`, which writes in
place: `os.makedirs(exist_ok=True)`, then `faiss.write_index` to
`index.faiss`, then `pickle.dump` to `index.pkl`.  `success` is the run with
no failure. -/
inductive SaveOutcome
  | failBeforeWrite
  | failDuringFaiss
  | failAfterFaiss
  | failDuringPkl
  | success
deriving DecidableEq

/-- Byte size of the serialized fragment texts (a simple concrete measure;
only used for the stat-based size report). -/
def fsize (d : List String) : Nat := d.foldl (fun a s => a + s.length) 0

/-- Models langchain-community `FAISS.save_local(folder_path)`: creates the
directory, then writes `index.faiss` and `index.pkl` in place (no temporary
file, no atomic rename).  Returns the file system after the run and whether
the save completed.  A failure mid-file leaves a truncated (`valid := false`)
artifact; a failure between the two files leaves the new `index.faiss` next to
whatever `index.pkl` was there before. -/
def save_local (fs : Fs) (d : List String) : SaveOutcome → Fs × Bool
  | .failBeforeWrite => ({ fs with dir := true }, false)
  | .failDuringFaiss =>
    (⟨true, some ⟨false, d, fsize d / 2⟩, fs.pklFile⟩, false)
  | .failAfterFaiss =>
    (⟨true, some ⟨true, d, fsize d⟩, fs.pklFile⟩, false)
  | .failDuringPkl =>
    (⟨true, some ⟨true, d, fsize d⟩, some ⟨false, d, fsize d / 2⟩⟩, false)
  | .success =>
    (⟨true, some ⟨true, d, fsize d⟩, some ⟨true, d, fsize d⟩⟩, true)

/-- Models `FAISS.load_local(FAISS_DB_PATH, embeddings, ...)`: reads
`index.faiss` then `index.pkl`; raises if either is missing or was not
written to completion; on success yields the docstore's fragment texts. -/
def load_local (fs : Fs) : Except Exn (List String) :=
  match fs.faissFile with
  | none => .error .loadError
  | some f =>
    if f.valid then
      match fs.pklFile with
      | none => .error .loadError
      | some p => if p.valid then .ok p.content else .error .loadError
    else .error .loadError

/-- The DashScope embeddings client, as constructed by
`DashScopeEmbeddings(model="text-embedding-v1", dashscope_api_key=...)`. -/
structure Client where
  model : String
  dashscope_api_key : String
deriving DecidableEq

/-- The rag_server process state: the file system, the module-level global
`embeddings` (the lazily-created client cache), and the `DASHSCOPE_API_KEY`
environment variable. -/
structure SState where
  fs : Fs
  embeddings : Option Client
  dashscope_api_key : Option String
deriving DecidableEq

/-- rag_server.py `initialize_embeddings`: if the global `embeddings` is
already set, return it; otherwise read `DASHSCOPE_API_KEY` (raising
`ValueError` when absent) and construct and cache the client.  Returns the
result, the new state and the emitted events. -/
def initialize_embeddings (s : SState) : Except Exn Client × SState × List Ev :=
  match s.embeddings with
  | some c => (.ok c, s, [])
  | none =>
    match s.dashscope_api_key with
    | none => (.error .missingApiKey, s, [])
    | some key =>
      let c : Client := ⟨"text-embedding-v1", key⟩
      (.ok c, { s with embeddings := some c }, [.constructClient])

/-- Injected failures of the external calls a query makes: a load that fails
for I/O reasons even on a complete store, and an embedding call that the
provider rejects. -/
structure Oracle where
  loadFails : Bool
  embedFails : Bool
deriving DecidableEq

/-- Models `vector_store.similarity_search(question, k)`: returns at most `k`
of the stored fragment texts.  The ranking itself is FAISS's (external); for
the properties in this file only which store the fragments come from and how
many are returned matter, so the model returns the first `min k n` fragments
in insertion order. -/
def similarity_search (docs : List String) (_question : String) (k : Int) : List String :=
  docs.take k.toNat

/-- The part of rag_server.py `query_documents` that runs after the embeddings
client is available: load the FAISS store, run the similarity search (which
embeds the question), and format.  The load and the embedding call may fail
(deterministically on an incomplete store, or through the oracle); any raised
exception is the caller's to catch.  Returns the message and the extra events
(none of these steps mutates the process state). -/
def afterInitQuery (fs : Fs) (o : Oracle) (question : String) (top_k : Int) :
    String × List Ev :=
  if o.loadFails then (" 查询文档时出错: " ++ Exn.loadError.msg, [.loadCall])
  else
    match load_local fs with
    | .error e => (" 查询文档时出错: " ++ e.msg, [.loadCall])
    | .ok stored =>
      if o.embedFails then
        (" 查询文档时出错: " ++ Exn.embedError.msg, [.loadCall, .embedCall])
      else
        let docs := similarity_search stored question top_k
        if docs.isEmpty then (" 没有找到相关的文档内容", [.loadCall, .embedCall])
        else
          let context := String.intercalate "\n\n" docs
          (" 基于文档的相关内容：\n\n" ++ context ++
            "\n\n 提示：您可以基于以上内容进一步提问，或者我可以为您生成更详细的回答。",
            [.loadCall, .embedCall])

/-- rag_server.py tool `query_documents(question, top_k)`: the whole body is a
`try`, so every raised exception is returned as ` 查询文档时出错: {str(e)}`.
If `check_database_exists()` is false it returns the prompt-to-ingest message
before touching the embeddings client or the store. -/
def query_documents (s : SState) (o : Oracle) (question : String) (top_k : Int) :
    String × SState × List Ev :=
  if !check_database_exists s.fs then (" 请先上传并处理PDF文件！", s, [])
  else
    match initialize_embeddings s with
    | (.error e, s1, evs) => (" 查询文档时出错: " ++ e.msg, s1, evs)
    | (.ok _c, s1, evs) =>
      let r := afterInitQuery s1.fs o question top_k
      (r.1, s1, evs ++ r.2)

/-- Size of `faiss_db/index.faiss` as get_database_status reads it:
`index_file.stat().st_size if index_file.exists() else 0`. -/
def faiss_size (fs : Fs) : Nat :=
  match fs.faissFile with | some f => f.size | none => 0

/-- Size of `faiss_db/index.pkl` as get_database_status reads it:
`pkl_file.stat().st_size if pkl_file.exists() else 0`. -/
def pkl_size (fs : Fs) : Nat :=
  match fs.pklFile with | some p => p.size | none => 0

/-- Renders a byte count the way `f"{size / 1024:.2f}"` does, up to the float
rounding mode (the model truncates the third decimal). -/
def kbFmt (n : Nat) : String :=
  toString (n * 100 / 1024 / 100) ++ "." ++
    (if n * 100 / 1024 % 100 < 10 then "0" ++ toString (n * 100 / 1024 % 100)
     else toString (n * 100 / 1024 % 100))

/-- rag_server.py tool `get_database_status()`: reports non-existence, or the
stat-based sizes of the two artifacts.  Reads only; never touches the
embeddings client. -/
def get_database_status (s : SState) : String × SState × List Ev :=
  if !check_database_exists s.fs then
    (" 状态：数据库未创建，请先上传并处理PDF文件", s, [])
  else
    (" 数据库状态：已就绪\n 索引文件大小：" ++ kbFmt (faiss_size s.fs) ++
      " KB\n 元数据文件大小：" ++ kbFmt (pkl_size s.fs) ++ " KB", s, [])

/-- rag_server.py tool `clear_database()`: if `faiss_db` exists,
`shutil.rmtree` it (modelled as succeeding, removing the directory and both
artifacts); otherwise report that there is nothing to clear. -/
def clear_database (s : SState) : String × SState × List Ev :=
  if s.fs.dir then (" 数据库已清除", { s with fs := Fs.empty }, [])
  else (" 数据库不存在，无需清除", s, [])

/-- The part of rag_server.py `search_similar_documents` after the embeddings
client is available: load, search, and format the numbered list of fragments
truncated to 200 characters. -/
def afterInitSearch (fs : Fs) (o : Oracle) (query : String) (top_k : Int) :
    String × List Ev :=
  if o.loadFails then (" 搜索文档时出错: " ++ Exn.loadError.msg, [.loadCall])
  else
    match load_local fs with
    | .error e => (" 搜索文档时出错: " ++ e.msg, [.loadCall])
    | .ok stored =>
      if o.embedFails then
        (" 搜索文档时出错: " ++ Exn.embedError.msg, [.loadCall, .embedCall])
      else
        let docs := similarity_search stored query top_k
        if docs.isEmpty then (" 没有找到相关的文档内容", [.loadCall, .embedCall])
        else
          let results := docs.enum.map
            (fun p => toString (p.1 + 1) ++ ". " ++ p.2.take 200 ++ "...")
          (" 找到 " ++ toString docs.length ++ " 个相关文档片段：\n\n" ++
            String.intercalate "\n\n" results, [.loadCall, .embedCall])

/-- rag_server.py tool `search_similar_documents(query, top_k)`: same shape as
`query_documents` with its own messages. -/
def search_similar_documents (s : SState) (o : Oracle) (query : String) (top_k : Int) :
    String × SState × List Ev :=
  if !check_database_exists s.fs then (" 请先上传并处理PDF文件！", s, [])
  else
    match initialize_embeddings s with
    | (.error e, s1, evs) => (" 搜索文档时出错: " ++ e.msg, s1, evs)
    | (.ok _c, s1, evs) =>
      let r := afterInitSearch s1.fs o query top_k
      (r.1, s1, evs ++ r.2)

/-- Modelled from the spec: the Chunker's windowing.  The repository delegates
splitting to langchain's `RecursiveCharacterTextSplitter(chunk_size=1000,
chunk_overlap=200)`, whose code is not part of this repository, so the
windows follow the spec's contract: consecutive windows of at most `size`
characters, each window after the first beginning `size - overlap` characters
after the previous window's start.  `fuel` bounds the recursion
(`text.length` always suffices). -/
def chunkAux : Nat → List Char → Nat → Nat → List (List Char)
  | 0, _, _, _ => []
  | fuel + 1, t, size, overlap =>
    if t.length ≤ size then [t]
    else t.take size :: chunkAux fuel (t.drop (size - overlap)) size overlap

/-- Modelled from the spec: `chunk(text, size, overlap)`.  Empty or
whitespace-only text yields no fragments; otherwise the fixed-stride windows
of `chunkAux`. -/
def chunk (text : List Char) (size overlap : Nat) : List (List Char) :=
  if text.all (fun c => c.isWhitespace) then []
  else chunkAux text.length text size overlap

/-- Substring test on character lists, as Python's `in` on strings. -/
def hasPre : List Char → List Char → Bool
  | [], _ => true
  | _ :: _, [] => false
  | a :: as, b :: bs => a == b && hasPre as bs

/-- Whether `needle` occurs as a contiguous substring of the second list. -/
def containsSub (needle : List Char) : List Char → Bool
  | [] => needle.isEmpty
  | c :: rest => hasPre needle (c :: rest) || containsSub needle rest

/-- pdf_processor.py `main`'s success test on the returned message:
`if "处理完成" in result: sys.exit(0)`. -/
def processSucceeded (msg : String) : Bool :=
  containsSub "处理完成".data msg.data

/-- pdf_processor.py `upload_and_process_pdf(pdf_path)`.  Inputs beyond the
prior file system: whether the PDF file exists, the `DASHSCOPE_API_KEY`
value, the text extracted from the PDF, whether the embedding provider fails
during `FAISS.from_texts`, and where the save stops.  The whole body is a
`try`, so failures come back as `处理PDF时出错: {str(e)}`.  Its
`initialize_embeddings` (this script's own, uncached) runs before the text is
extracted and checked. -/
def upload_and_process_pdf (fs : Fs) (pdf_path : String) (pdfExists : Bool)
    (env : Option String) (raw_text : String) (embedFails : Bool)
    (so : SaveOutcome) : String × Fs × List Ev :=
  if !pdfExists then ("文件不存在: " ++ pdf_path, fs, [])
  else
    match env with
    | none => ("处理PDF时出错: " ++ Exn.missingApiKey.msg, fs, [])
    | some _key =>
      if raw_text.data.all (fun c => c.isWhitespace) then
        ("无法从PDF中提取文本，请检查文件是否有效", fs, [.constructClient])
      else
        let text_chunks := (chunk raw_text.data 1000 200).map (fun l => String.mk l)
        if embedFails then
          ("处理PDF时出错: " ++ Exn.embedError.msg, fs, [.constructClient, .embedCall])
        else
          let r := save_local fs text_chunks so
          if r.2 then
            ("PDF处理完成！已创建向量数据库，包含 " ++ toString text_chunks.length ++
              " 个文本片段", r.1,
              [.constructClient, .embedCall, .buildIndex, .saveCall])
          else
            ("处理PDF时出错: " ++ Exn.ioError.msg, r.1,
              [.constructClient, .embedCall, .buildIndex, .saveCall])

/-- One call into the rag_server process, for reasoning about call
sequences. -/
inductive Op
  | initEmb
  | queryDoc (o : Oracle) (q : String) (k : Int)
  | statusOp
  | clearOp
  | searchSim (o : Oracle) (q : String) (k : Int)
deriving DecidableEq

/-- The state transition and events of one call (messages dropped). -/
def runOp (s : SState) : Op → SState × List Ev
  | .initEmb => ((initialize_embeddings s).2.1, (initialize_embeddings s).2.2)
  | .queryDoc o q k => ((query_documents s o q k).2.1, (query_documents s o q k).2.2)
  | .statusOp => ((get_database_status s).2.1, (get_database_status s).2.2)
  | .clearOp => ((clear_database s).2.1, (clear_database s).2.2)
  | .searchSim o q k =>
    ((search_similar_documents s o q k).2.1, (search_similar_documents s o q k).2.2)

/-- A sequence of calls within one process: final state and all events. -/
def runOps : SState → List Op → SState × List Ev
  | s, [] => (s, [])
  | s, op :: rest =>
    let r := runOp s op
    let r2 := runOps r.1 rest
    (r2.1, r.2 ++ r2.2)

/-- How many embeddings-client constructions a trace holds. -/
def conCount : List Ev → Nat
  | [] => 0
  | Ev.constructClient :: rest => conCount rest + 1
  | _ :: rest => conCount rest

/-- The possible returns of the `query_documents` tool: the not-ready prompt,
a caught-exception message, the no-results message, or formatted content. -/
def QueryShape (r : String) : Prop :=
  r = " 请先上传并处理PDF文件！" ∨
  (∃ e : Exn, r = " 查询文档时出错: " ++ e.msg) ∨
  r = " 没有找到相关的文档内容" ∨
  (∃ ctx, r = " 基于文档的相关内容：\n\n" ++ ctx ++
    "\n\n 提示：您可以基于以上内容进一步提问，或者我可以为您生成更详细的回答。")

/-- The possible returns of the `get_database_status` tool. -/
def StatusShape (r : String) : Prop :=
  r = " 状态：数据库未创建，请先上传并处理PDF文件" ∨
  (∃ a b, r = " 数据库状态：已就绪\n 索引文件大小：" ++ kbFmt a ++
    " KB\n 元数据文件大小：" ++ kbFmt b ++ " KB")

/-- The possible returns of the `clear_database` tool. -/
def ClearShape (r : String) : Prop :=
  r = " 数据库已清除" ∨ r = " 数据库不存在，无需清除"

/-- The possible returns of the `search_similar_documents` tool. -/
def SearchShape (r : String) : Prop :=
  r = " 请先上传并处理PDF文件！" ∨
  (∃ e : Exn, r = " 搜索文档时出错: " ++ e.msg) ∨
  r = " 没有找到相关的文档内容" ∨
  (∃ n : Nat, ∃ body, r = " 找到 " ++ toString n ++ " 个相关文档片段：\n\n" ++ body)

theorem chunkAux_getD (fuel : Nat) (t : List Char) (size overlap i : Nat)
    (hov : overlap < size) (hf : t.length ≤ fuel)
    (hi : i < (chunkAux fuel t size overlap).length) :
    (chunkAux fuel t size overlap).getD i [] = (t.drop (i * (size - overlap))).take size := by
  induction fuel generalizing t i with
  | zero =>
    have ht : t = [] := List.length_eq_zero.mp (Nat.le_zero.mp hf)
    subst ht
    simp [chunkAux] at hi
  | succ fuel ih =>
    by_cases hle : t.length ≤ size
    · have h1 : chunkAux (fuel + 1) t size overlap = [t] := by simp [chunkAux, hle]
      rw [h1] at hi ⊢
      have hi0 : i = 0 := by simpa using hi
      subst hi0
      simp [List.take_of_length_le hle]
    · have h1 : chunkAux (fuel + 1) t size overlap
          = t.take size :: chunkAux fuel (t.drop (size - overlap)) size overlap := by
        simp [chunkAux, hle]
      rw [h1] at hi ⊢
      cases i with
      | zero => simp
      | succ j =>
        have hfl : (t.drop (size - overlap)).length ≤ fuel := by
          rw [List.length_drop]
          omega
        have hj : j < (chunkAux fuel (t.drop (size - overlap)) size overlap).length := by
          simpa using hi
        have hrec := ih (t.drop (size - overlap)) j hfl hj
        simp only [List.getD_cons_succ]
        rw [hrec, List.drop_drop, Nat.succ_mul, Nat.add_comm]

/-- C4 (confirmed, spec-modelled): for `0 <= overlap < size`, fragment `i` of
`chunk text size overlap` is exactly the window of `text` that starts
`i * (size - overlap)` characters in and is at most `size` characters long —
so each fragment has length at most `size` and fragment `i+1` starts exactly
`size - overlap` characters after fragment `i` starts, the last window alone
possibly falling short of `size`.  Determinism is immediate: `chunk` is a
pure function of `(text, size, overlap)`. -/
theorem chunk_window_spec (text : List Char) (size overlap i : Nat)
    (hov : overlap < size) (hi : i < (chunk text size overlap).length) :
    (chunk text size overlap).getD i [] = (text.drop (i * (size - overlap))).take size ∧
    ((chunk text size overlap).getD i []).length ≤ size := by
  cases hw : text.all (fun c => c.isWhitespace) with
  | true => simp [chunk, hw] at hi
  | false =>
    simp only [chunk, hw, Bool.false_eq_true, if_false] at hi ⊢
    have hmain := chunkAux_getD text.length text size overlap i hov (Nat.le_refl _) hi
    refine ⟨hmain, ?_⟩
    rw [hmain]
    rw [List.length_take]
    exact Nat.min_le_left _ _

theorem chunk_window_spec_witness :
    ((1 : Nat) < 3 ∧ 1 < (chunk "abcdefgh".data 3 1).length) ∧
    ((chunk "abcdefgh".data 3 1).getD 1 [] = ("abcdefgh".data.drop (1 * (3 - 1))).take 3 ∧
      ((chunk "abcdefgh".data 3 1).getD 1 []).length ≤ 3) :=
  ⟨⟨by decide, by decide⟩, chunk_window_spec "abcdefgh".data 3 1 1 (by decide) (by decide)⟩

/-- C3 counterexample: a save that stops right after writing `index.faiss`
(crash mid-save) leaves a partially written store — `index.faiss` present,
`index.pkl` absent, so not a complete store — on which
`check_database_exists` nevertheless returns `true`. -/
theorem exists_check_counterexample :
    (save_local Fs.empty ["frag"] SaveOutcome.failAfterFaiss).1.faissFile.isSome = true ∧
    (save_local Fs.empty ["frag"] SaveOutcome.failAfterFaiss).1.pklFile = none ∧
    complete_store (save_local Fs.empty ["frag"] SaveOutcome.failAfterFaiss).1 = false ∧
    check_database_exists (save_local Fs.empty ["frag"] SaveOutcome.failAfterFaiss).1 = true := by
  decide

/-- C3 (amended): `check_database_exists` returns `true` whenever the
directory and the primary artifact `index.faiss` are present; in particular a
complete, previously-saved store always reports `true`.  The converse fails:
the check does not require `index.pkl`, so a partially written store may also
report `true` (the counterexample). -/
theorem exists_of_complete_store (fs : Fs) (h : complete_store fs = true) :
    check_database_exists fs = true := by
  obtain ⟨d, ff, pf⟩ := fs
  cases ff <;> cases pf <;> simp_all [complete_store, check_database_exists]

theorem exists_of_complete_store_witness :
    complete_store ⟨true, some ⟨true, ["frag"], 4⟩, some ⟨true, ["frag"], 6⟩⟩ = true ∧
    check_database_exists ⟨true, some ⟨true, ["frag"], 4⟩, some ⟨true, ["frag"], 6⟩⟩ = true :=
  ⟨by decide, exists_of_complete_store _ (by decide)⟩

/-- C2 (amended): whenever `check_database_exists()` is false — the store
directory or `index.faiss` is missing — `query_documents` returns the
prompt-to-ingest message as an ordinary value, with the process state
untouched and no events: the store is not loaded and the embedding client is
neither constructed nor called.  The guard is only the presence check, so an
incomplete store that still has `index.faiss` slips past it (the
counterexample). -/
theorem query_not_ready (s : SState) (o : Oracle) (q : String) (k : Int)
    (h : check_database_exists s.fs = false) :
    query_documents s o q k = (" 请先上传并处理PDF文件！", s, []) := by
  simp [query_documents, h]

theorem query_not_ready_witness :
    check_database_exists (Fs.empty) = false ∧
    query_documents ⟨Fs.empty, none, none⟩ ⟨false, false⟩ "什么是向量数据库" 5 =
      (" 请先上传并处理PDF文件！", ⟨Fs.empty, none, none⟩, []) :=
  ⟨by decide, query_not_ready ⟨Fs.empty, none, none⟩ ⟨false, false⟩ "什么是向量数据库" 5 (by decide)⟩

/-- C2 counterexample: a state with `index.faiss` present but `index.pkl`
missing holds no complete store, yet `query_documents` does not return the
not-ready message: it constructs the embedding client, attempts the load, and
returns the caught-exception string. -/
theorem query_not_ready_counterexample :
    complete_store ⟨true, some ⟨true, ["frag"], 4⟩, none⟩ = false ∧
    (query_documents ⟨⟨true, some ⟨true, ["frag"], 4⟩, none⟩, none, some "k"⟩
        ⟨false, false⟩ "q" 5).1 = " 查询文档时出错: " ++ Exn.loadError.msg ∧
    (query_documents ⟨⟨true, some ⟨true, ["frag"], 4⟩, none⟩, none, some "k"⟩
        ⟨false, false⟩ "q" 5).1 ≠ " 请先上传并处理PDF文件！" ∧
    Ev.constructClient ∈ (query_documents ⟨⟨true, some ⟨true, ["frag"], 4⟩, none⟩, none, some "k"⟩
        ⟨false, false⟩ "q" 5).2.2 := by
  decide

/-- C5 (confirmed): when the extracted text is empty or whitespace-only (with
the PDF present and the credential configured, so extraction is reached),
ingestion returns the empty-document error message; the trace holds no
embedding call, no index build and no save, and the prior store is untouched.
The only event is the client construction that step 2 of the script performs
before reading the PDF. -/
theorem empty_document_aborts (fs : Fs) (p key raw : String) (ef : Bool) (so : SaveOutcome)
    (hraw : raw.data.all (fun c => c.isWhitespace) = true) :
    upload_and_process_pdf fs p true (some key) raw ef so =
      ("无法从PDF中提取文本，请检查文件是否有效", fs, [Ev.constructClient]) ∧
    Ev.embedCall ∉ (upload_and_process_pdf fs p true (some key) raw ef so).2.2 ∧
    Ev.buildIndex ∉ (upload_and_process_pdf fs p true (some key) raw ef so).2.2 ∧
    Ev.saveCall ∉ (upload_and_process_pdf fs p true (some key) raw ef so).2.2 ∧
    (upload_and_process_pdf fs p true (some key) raw ef so).2.1 = fs := by
  simp [upload_and_process_pdf, hraw]

theorem empty_document_aborts_witness :
    ("".data.all (fun c => c.isWhitespace) = true) ∧
    (upload_and_process_pdf Fs.empty "doc.pdf" true (some "k") "" false SaveOutcome.success =
        ("无法从PDF中提取文本，请检查文件是否有效", Fs.empty, [Ev.constructClient]) ∧
      Ev.embedCall ∉ (upload_and_process_pdf Fs.empty "doc.pdf" true (some "k") "" false
        SaveOutcome.success).2.2 ∧
      Ev.buildIndex ∉ (upload_and_process_pdf Fs.empty "doc.pdf" true (some "k") "" false
        SaveOutcome.success).2.2 ∧
      Ev.saveCall ∉ (upload_and_process_pdf Fs.empty "doc.pdf" true (some "k") "" false
        SaveOutcome.success).2.2 ∧
      (upload_and_process_pdf Fs.empty "doc.pdf" true (some "k") "" false
        SaveOutcome.success).2.1 = Fs.empty) :=
  ⟨by decide, empty_document_aborts Fs.empty "doc.pdf" "k" "" false SaveOutcome.success (by decide)⟩

/-- C1 (amended): when embedding or index build fails (`FAISS.from_texts`),
ingestion fails as a whole — the success test of `main` is false — and the
previously persisted store is untouched, so `check_database_exists` reports
exactly the pre-ingestion state.  The save step, however, writes in place,
so a failure during save is not covered by this guarantee (the
counterexample). -/
theorem ingest_pre_save_failure_preserves_store (fs : Fs) (p key raw : String)
    (so : SaveOutcome) (hraw : raw.data.all (fun c => c.isWhitespace) = false) :
    (upload_and_process_pdf fs p true (some key) raw true so).2.1 = fs ∧
    check_database_exists (upload_and_process_pdf fs p true (some key) raw true so).2.1 =
      check_database_exists fs ∧
    processSucceeded (upload_and_process_pdf fs p true (some key) raw true so).1 = false := by
  refine ⟨by simp [upload_and_process_pdf, hraw], by simp [upload_and_process_pdf, hraw], ?_⟩
  have hmsg : (upload_and_process_pdf fs p true (some key) raw true so).1 =
      "处理PDF时出错: " ++ Exn.embedError.msg := by
    simp [upload_and_process_pdf, hraw]
  rw [hmsg]
  decide

theorem ingest_pre_save_failure_preserves_store_witness :
    ("中文内容".data.all (fun c => c.isWhitespace) = false) ∧
    ((upload_and_process_pdf ⟨true, some ⟨true, ["old"], 3⟩, some ⟨true, ["old"], 5⟩⟩ "doc.pdf"
        true (some "k") "中文内容" true SaveOutcome.success).2.1 =
      ⟨true, some ⟨true, ["old"], 3⟩, some ⟨true, ["old"], 5⟩⟩ ∧
    check_database_exists (upload_and_process_pdf ⟨true, some ⟨true, ["old"], 3⟩,
        some ⟨true, ["old"], 5⟩⟩ "doc.pdf" true (some "k") "中文内容" true
        SaveOutcome.success).2.1 =
      check_database_exists ⟨true, some ⟨true, ["old"], 3⟩, some ⟨true, ["old"], 5⟩⟩ ∧
    processSucceeded (upload_and_process_pdf ⟨true, some ⟨true, ["old"], 3⟩,
        some ⟨true, ["old"], 5⟩⟩ "doc.pdf" true (some "k") "中文内容" true
        SaveOutcome.success).1 = false) :=
  ⟨by decide, ingest_pre_save_failure_preserves_store _ "doc.pdf" "k" "中文内容"
    SaveOutcome.success (by decide)⟩

/-- C1 counterexample: starting from no store at all, an ingestion whose save
fails right after `index.faiss` is written fails as a whole, yet afterwards
`check_database_exists` reports `true` — not the pre-save state `false`: the
in-place save has half-overwritten the location. -/
theorem ingestion_atomicity_counterexample :
    check_database_exists Fs.empty = false ∧
    processSucceeded (upload_and_process_pdf Fs.empty "a.pdf" true (some "k") "hello world"
      false SaveOutcome.failAfterFaiss).1 = false ∧
    check_database_exists (upload_and_process_pdf Fs.empty "a.pdf" true (some "k") "hello world"
      false SaveOutcome.failAfterFaiss).2.1 = true := by
  decide

/-- C6 (amended): `query_documents` performs no validation of `top_k` at all —
there is no `InvalidArgument` path.  A call with `top_k <= 0` behaves exactly
as the call with `top_k = 0`: same message, same state, same events (the
value only reaches the search as `max(k, 0)` worth of results). -/
theorem query_topk_unvalidated (s : SState) (o : Oracle) (q : String) (k : Int)
    (hk : k ≤ 0) :
    query_documents s o q k = query_documents s o q 0 := by
  have h0 : k.toNat = 0 := Int.toNat_of_nonpos hk
  have hAfter : ∀ fs : Fs, afterInitQuery fs o q k = afterInitQuery fs o q 0 := by
    intro fs
    simp [afterInitQuery, similarity_search, h0]
  rcases hinit : initialize_embeddings s with ⟨res, s1, evs⟩
  cases res <;> simp [query_documents, hinit, hAfter]

theorem query_topk_unvalidated_witness :
    ((-3 : Int) ≤ 0) ∧
    query_documents ⟨Fs.empty, none, some "k"⟩ ⟨false, false⟩ "q" (-3) =
      query_documents ⟨Fs.empty, none, some "k"⟩ ⟨false, false⟩ "q" 0 :=
  ⟨by decide, query_topk_unvalidated ⟨Fs.empty, none, some "k"⟩ ⟨false, false⟩ "q" (-3)
    (by decide)⟩

/-- C6 counterexample: with no store present and `top_k = 0`, the call
returns the ordinary not-ready result — untouched state, no events, no
error of any kind — not an `InvalidArgument` failure. -/
theorem invalid_topk_counterexample :
    ((0 : Int) ≤ 0) ∧
    query_documents ⟨Fs.empty, none, some "k"⟩ ⟨false, false⟩ "q" 0 =
      (" 请先上传并处理PDF文件！", ⟨Fs.empty, none, some "k"⟩, []) := by
  decide

/-- C7 (confirmed): after any `clear_database` call the existence check is
false; clearing when the location is already absent is a no-op returning the
"nothing to clear" message (not an error); and a second clear right after a
first one returns that same no-op message and changes nothing. -/
theorem clear_database_idempotent (s : SState) :
    check_database_exists (clear_database s).2.1.fs = false ∧
    (s.fs.dir = false → clear_database s = (" 数据库不存在，无需清除", s, [])) ∧
    (clear_database (clear_database s).2.1).1 = " 数据库不存在，无需清除" ∧
    (clear_database (clear_database s).2.1).2.1 = (clear_database s).2.1 := by
  cases h : s.fs.dir <;>
    simp [clear_database, h, check_database_exists, Fs.empty]

theorem clear_database_idempotent_witness :
    ((⟨Fs.empty, none, none⟩ : SState).fs.dir = false) ∧
    clear_database ⟨Fs.empty, none, none⟩ =
      (" 数据库不存在，无需清除", ⟨Fs.empty, none, none⟩, []) ∧
    check_database_exists (clear_database ⟨Fs.empty, none, none⟩).2.1.fs = false :=
  ⟨rfl, (clear_database_idempotent ⟨Fs.empty, none, none⟩).2.1 rfl,
    (clear_database_idempotent ⟨Fs.empty, none, none⟩).1⟩

/-- C8 (confirmed): `get_database_status` returns the existence flag and the
stat-based size report, leaves the process state (including the store on
disk) exactly as it was, and emits no event — in particular it neither
constructs nor calls the embedding client. -/
theorem status_reports_without_provider (s : SState) :
    (get_database_status s).2.1 = s ∧
    (get_database_status s).2.2 = ([] : List Ev) ∧
    (get_database_status s).1 =
      (if check_database_exists s.fs then
        " 数据库状态：已就绪\n 索引文件大小：" ++ kbFmt (faiss_size s.fs) ++
          " KB\n 元数据文件大小：" ++ kbFmt (pkl_size s.fs) ++ " KB"
      else " 状态：数据库未创建，请先上传并处理PDF文件") := by
  cases h : check_database_exists s.fs <;> simp [get_database_status, h]

theorem init_cache_some (s : SState) (c : Client) (h : s.embeddings = some c) :
    initialize_embeddings s = (.ok c, s, []) := by
  simp [initialize_embeddings, h]

theorem initialize_embeddings_cases (s : SState) :
    (initialize_embeddings s).2.1.fs = s.fs ∧
    (initialize_embeddings s).2.1.dashscope_api_key = s.dashscope_api_key ∧
    ((conCount (initialize_embeddings s).2.2 = 0 ∧
      (initialize_embeddings s).2.1.embeddings = s.embeddings) ∨
     (conCount (initialize_embeddings s).2.2 = 1 ∧ s.embeddings = none ∧
      ∃ key, s.dashscope_api_key = some key ∧
        (initialize_embeddings s).2.1.embeddings = some ⟨"text-embedding-v1", key⟩)) := by
  cases hc : s.embeddings with
  | some c => simp [initialize_embeddings, hc, conCount]
  | none =>
    cases he : s.dashscope_api_key with
    | none => simp [initialize_embeddings, hc, he, conCount]
    | some key =>
      refine ⟨by simp [initialize_embeddings, hc, he], by simp [initialize_embeddings, hc, he], ?_⟩
      exact Or.inr ⟨by simp [initialize_embeddings, hc, he, conCount], rfl,
        key, rfl, by simp [initialize_embeddings, hc, he]⟩

theorem conCount_append (a b : List Ev) : conCount (a ++ b) = conCount a + conCount b := by
  induction a with
  | nil => simp [conCount]
  | cons h t ih =>
    cases h <;> simp [conCount, ih]
    omega

theorem conCount_afterInitQuery (fs : Fs) (o : Oracle) (q : String) (k : Int) :
    conCount (afterInitQuery fs o q k).2 = 0 := by
  cases hl : o.loadFails with
  | true => simp [afterInitQuery, hl, conCount]
  | false =>
    cases hload : load_local fs with
    | error e => simp [afterInitQuery, hl, hload, conCount]
    | ok stored =>
      cases he : o.embedFails with
      | true => simp [afterInitQuery, hl, hload, he, conCount]
      | false =>
        cases hd : (similarity_search stored q k).isEmpty with
        | true => simp [afterInitQuery, hl, hload, he, hd, conCount]
        | false => simp [afterInitQuery, hl, hload, he, hd, conCount]

theorem conCount_afterInitSearch (fs : Fs) (o : Oracle) (q : String) (k : Int) :
    conCount (afterInitSearch fs o q k).2 = 0 := by
  cases hl : o.loadFails with
  | true => simp [afterInitSearch, hl, conCount]
  | false =>
    cases hload : load_local fs with
    | error e => simp [afterInitSearch, hl, hload, conCount]
    | ok stored =>
      cases he : o.embedFails with
      | true => simp [afterInitSearch, hl, hload, he, conCount]
      | false =>
        cases hd : (similarity_search stored q k).isEmpty with
        | true => simp [afterInitSearch, hl, hload, he, hd, conCount]
        | false => simp [afterInitSearch, hl, hload, he, hd, conCount]

theorem runOp_construct (s : SState) (op : Op) :
    (runOp s op).1.dashscope_api_key = s.dashscope_api_key ∧
    ((conCount (runOp s op).2 = 0 ∧ (runOp s op).1.embeddings = s.embeddings) ∨
     (conCount (runOp s op).2 = 1 ∧ s.embeddings = none ∧
      ∃ key, s.dashscope_api_key = some key ∧
        (runOp s op).1.embeddings = some ⟨"text-embedding-v1", key⟩)) := by
  cases op with
  | initEmb =>
    exact ⟨(initialize_embeddings_cases s).2.1, (initialize_embeddings_cases s).2.2⟩
  | queryDoc o q k =>
    cases hc : check_database_exists s.fs with
    | false => simp [runOp, query_documents, hc, conCount]
    | true =>
      have hcases := initialize_embeddings_cases s
      rcases hinit : initialize_embeddings s with ⟨res, s1, evs⟩
      rw [hinit] at hcases
      cases res with
      | error e =>
        simpa [runOp, query_documents, hc, hinit] using ⟨hcases.2.1, hcases.2.2⟩
      | ok c =>
        simpa [runOp, query_documents, hc, hinit, conCount_append,
          conCount_afterInitQuery] using ⟨hcases.2.1, hcases.2.2⟩
  | statusOp =>
    cases hc : check_database_exists s.fs <;> simp [runOp, get_database_status, hc, conCount]
  | clearOp =>
    cases hd : s.fs.dir <;> simp [runOp, clear_database, hd, conCount]
  | searchSim o q k =>
    cases hc : check_database_exists s.fs with
    | false => simp [runOp, search_similar_documents, hc, conCount]
    | true =>
      have hcases := initialize_embeddings_cases s
      rcases hinit : initialize_embeddings s with ⟨res, s1, evs⟩
      rw [hinit] at hcases
      cases res with
      | error e =>
        simpa [runOp, search_similar_documents, hc, hinit] using ⟨hcases.2.1, hcases.2.2⟩
      | ok c =>
        simpa [runOp, search_similar_documents, hc, hinit, conCount_append,
          conCount_afterInitSearch] using ⟨hcases.2.1, hcases.2.2⟩

theorem runOps_cache_some : ∀ (ops : List Op) (s : SState) (c : Client),
    s.embeddings = some c →
    (runOps s ops).1.embeddings = some c ∧ conCount (runOps s ops).2 = 0 ∧
    (runOps s ops).1.dashscope_api_key = s.dashscope_api_key := by
  intro ops
  induction ops with
  | nil => intro s c h; simp [runOps, conCount, h]
  | cons op rest ih =>
    intro s c h
    obtain ⟨henv, hdisj⟩ := runOp_construct s op
    rcases hdisj with ⟨h0, hkeep⟩ | ⟨_, hnone, _⟩
    · rw [h] at hkeep
      obtain ⟨ih1, ih2, ih3⟩ := ih (runOp s op).1 c hkeep
      refine ⟨by simpa [runOps] using ih1, ?_, ?_⟩
      · simp [runOps, conCount_append, h0, ih2]
      · simp only [runOps]
        rw [ih3, henv]
    · rw [h] at hnone
      exact Option.noConfusion hnone

theorem runOps_le_one : ∀ (ops : List Op) (s : SState),
    s.embeddings = none → conCount (runOps s ops).2 ≤ 1 := by
  intro ops
  induction ops with
  | nil => intro s _; simp [runOps, conCount]
  | cons op rest ih =>
    intro s h
    obtain ⟨henv, hdisj⟩ := runOp_construct s op
    rcases hdisj with ⟨h0, hkeep⟩ | ⟨h1, _, key, hkey, hnew⟩
    · rw [h] at hkeep
      have hrest := ih (runOp s op).1 hkeep
      simpa [runOps, conCount_append, h0] using hrest
    · have hrest := runOps_cache_some rest (runOp s op).1 _ hnew
      simp [runOps, conCount_append, h1, hrest.2.1]

theorem runOps_exact_one : ∀ (ops : List Op) (s : SState) (key : String),
    s.embeddings = none → s.dashscope_api_key = some key → Op.initEmb ∈ ops →
    conCount (runOps s ops).2 = 1 := by
  intro ops
  induction ops with
  | nil => intro s key _ _ hmem; simp at hmem
  | cons op rest ih =>
    intro s key h hk hmem
    obtain ⟨henv, hdisj⟩ := runOp_construct s op
    rcases hdisj with ⟨h0, hkeep⟩ | ⟨h1, _, key2, hkey2, hnew⟩
    · rw [h] at hkeep
      have hne : op ≠ Op.initEmb := by
        intro he
        subst he
        have hone : conCount (runOp s Op.initEmb).2 = 1 := by
          simp [runOp, initialize_embeddings, h, hk, conCount]
        omega
      have hmem2 : Op.initEmb ∈ rest := by
        rcases List.mem_cons.mp hmem with he | hr
        · exact absurd he.symm hne
        · exact hr
      have henv2 : (runOp s op).1.dashscope_api_key = some key := by rw [henv, hk]
      have hrest := ih (runOp s op).1 key hkeep henv2 hmem2
      simp [runOps, conCount_append, h0, hrest]
    · have hrest := runOps_cache_some rest (runOp s op).1 _ hnew
      simp [runOps, conCount_append, h1, hrest.2.1]

/-- C9 (confirmed): across any sequence of calls within one process that
starts with no cached client, at most one embeddings client is ever
constructed; exactly one when the credential is configured and
`initialize_embeddings` is called at least once; and once a client is
cached, a further `initialize_embeddings` call returns that same cached
client with no new construction. -/
theorem embeddings_client_singleton (s : SState) (ops : List Op)
    (h : s.embeddings = none) :
    conCount (runOps s ops).2 ≤ 1 ∧
    (∀ key, s.dashscope_api_key = some key → Op.initEmb ∈ ops →
      conCount (runOps s ops).2 = 1) ∧
    (∀ c, (runOps s ops).1.embeddings = some c →
      initialize_embeddings (runOps s ops).1 =
        (Except.ok c, (runOps s ops).1, [])) := by
  refine ⟨runOps_le_one ops s h, ?_, ?_⟩
  · intro key hk hmem
    exact runOps_exact_one ops s key h hk hmem
  · intro c hc
    exact init_cache_some _ c hc

theorem embeddings_client_singleton_witness :
    ((⟨Fs.empty, none, some "k"⟩ : SState).embeddings = none) ∧
    conCount (runOps ⟨Fs.empty, none, some "k"⟩ [Op.initEmb, Op.initEmb, Op.statusOp]).2 = 1 :=
  ⟨rfl, (embeddings_client_singleton ⟨Fs.empty, none, some "k"⟩
    [Op.initEmb, Op.initEmb, Op.statusOp] rfl).2.1 "k" rfl (by decide)⟩

theorem afterInitQuery_shape (fs : Fs) (o : Oracle) (q : String) (k : Int) :
    QueryShape (afterInitQuery fs o q k).1 := by
  unfold QueryShape
  cases hl : o.loadFails with
  | true => exact Or.inr (Or.inl ⟨Exn.loadError, by simp [afterInitQuery, hl]⟩)
  | false =>
    cases hload : load_local fs with
    | error e => exact Or.inr (Or.inl ⟨e, by simp [afterInitQuery, hl, hload]⟩)
    | ok stored =>
      cases he : o.embedFails with
      | true => exact Or.inr (Or.inl ⟨Exn.embedError, by simp [afterInitQuery, hl, hload, he]⟩)
      | false =>
        cases hd : (similarity_search stored q k).isEmpty with
        | true =>
          exact Or.inr (Or.inr (Or.inl (by simp [afterInitQuery, hl, hload, he, hd])))
        | false =>
          exact Or.inr (Or.inr (Or.inr
            ⟨String.intercalate "\n\n" (similarity_search stored q k),
              by simp [afterInitQuery, hl, hload, he, hd]⟩))

theorem query_documents_shape (s : SState) (o : Oracle) (q : String) (k : Int) :
    QueryShape (query_documents s o q k).1 := by
  cases hc : check_database_exists s.fs with
  | false => exact Or.inl (by simp [query_documents, hc])
  | true =>
    rcases hinit : initialize_embeddings s with ⟨res, s1, evs⟩
    cases res with
    | error e =>
      exact Or.inr (Or.inl ⟨e, by simp [query_documents, hc, hinit]⟩)
    | ok c =>
      have hq : (query_documents s o q k).1 = (afterInitQuery s1.fs o q k).1 := by
        simp [query_documents, hc, hinit]
      rw [hq]
      exact afterInitQuery_shape s1.fs o q k

theorem get_database_status_shape (s : SState) : StatusShape (get_database_status s).1 := by
  unfold StatusShape
  cases hc : check_database_exists s.fs with
  | false => exact Or.inl (by simp [get_database_status, hc])
  | true =>
    exact Or.inr ⟨faiss_size s.fs, pkl_size s.fs, by simp [get_database_status, hc]⟩

theorem clear_database_shape (s : SState) : ClearShape (clear_database s).1 := by
  unfold ClearShape
  cases hd : s.fs.dir with
  | true => exact Or.inl (by simp [clear_database, hd])
  | false => exact Or.inr (by simp [clear_database, hd])

theorem afterInitSearch_shape (fs : Fs) (o : Oracle) (q : String) (k : Int) :
    SearchShape (afterInitSearch fs o q k).1 := by
  unfold SearchShape
  cases hl : o.loadFails with
  | true => exact Or.inr (Or.inl ⟨Exn.loadError, by simp [afterInitSearch, hl]⟩)
  | false =>
    cases hload : load_local fs with
    | error e => exact Or.inr (Or.inl ⟨e, by simp [afterInitSearch, hl, hload]⟩)
    | ok stored =>
      cases he : o.embedFails with
      | true =>
        exact Or.inr (Or.inl ⟨Exn.embedError, by simp [afterInitSearch, hl, hload, he]⟩)
      | false =>
        cases hd : (similarity_search stored q k).isEmpty with
        | true =>
          exact Or.inr (Or.inr (Or.inl (by simp [afterInitSearch, hl, hload, he, hd])))
        | false =>
          exact Or.inr (Or.inr (Or.inr
            ⟨(similarity_search stored q k).length,
              String.intercalate "\n\n" ((similarity_search stored q k).enum.map
                (fun p => toString (p.1 + 1) ++ ". " ++ p.2.take 200 ++ "...")),
              by simp [afterInitSearch, hl, hload, he, hd]⟩))

theorem search_similar_documents_shape (s : SState) (o : Oracle) (q : String) (k : Int) :
    SearchShape (search_similar_documents s o q k).1 := by
  cases hc : check_database_exists s.fs with
  | false => exact Or.inl (by simp [search_similar_documents, hc])
  | true =>
    rcases hinit : initialize_embeddings s with ⟨res, s1, evs⟩
    cases res with
    | error e =>
      exact Or.inr (Or.inl ⟨e, by simp [search_similar_documents, hc, hinit]⟩)
    | ok c =>
      have hq : (search_similar_documents s o q k).1 = (afterInitSearch s1.fs o q k).1 := by
        simp [search_similar_documents, hc, hinit]
      rw [hq]
      exact afterInitSearch_shape s1.fs o q k

/-- C10 (confirmed): each public tool of the RAG server is total at its
interface — for every state, injected internal failure (missing credential,
load failure on an incomplete or corrupt store, embedding-provider failure)
and input, the call returns one of its enumerated human-readable message
shapes as an ordinary string; the caught-exception messages are among these
shapes, so no exception escapes. -/
theorem rag_tools_total (s : SState) (o : Oracle) (q : String) (k : Int) :
    QueryShape (query_documents s o q k).1 ∧
    StatusShape (get_database_status s).1 ∧
    ClearShape (clear_database s).1 ∧
    SearchShape (search_similar_documents s o q k).1 :=
  ⟨query_documents_shape s o q k, get_database_status_shape s,
    clear_database_shape s, search_similar_documents_shape s o q k⟩

end AgentMCP
